import Mathlib

/-!
Verification of the ETF investment simulator (`simulador_streamlit.py`).

The computational core of the repository consists of:
* `simular_inversion` — the monthly DRIP accrual recurrence (source lines 86–115),
* the goal-seek while loop of the "Alcanzar Meta" tab (source lines 260–276),
* the sensitivity scenarios of the "Análisis de Sensibilidad" tab (source lines 313–328).

Python floats are modelled by exact rationals (`ℚ`): every claim under scrutiny is an
algebraic property of the recurrence, not a rounding property.  Month counters are `ℕ`.
-/

/-- One row of the simulation output: the dictionary appended per month in
`simular_inversion` (source lines 106–113), with the keys
`Mes`, `Capital Inicial`, `Aporte`, `Dividendos Netos`, `Crecimiento`, `Capital Final`. -/
structure RegistroMes where
  mes : ℕ
  capitalInicialMes : ℚ
  aporte : ℚ
  divNetos : ℚ
  crecimiento : ℚ
  capitalFinal : ℚ
  deriving Repr, DecidableEq

/-- The body of the `for mes in range(1, meses + 1)` loop of `simular_inversion`
(source lines 96–113), producing the record for one month from the carried capital.
The rate arguments are the already-divided monthly rates computed on lines 88–90. -/
def pasoMes (aporteMensual rendimientoMensual dividendosMensual retencionFactor : ℚ)
    (capital : ℚ) (mes : ℕ) : RegistroMes :=
  let capitalInicialMes := capital
  let aporte := aporteMensual
  let capitalAntes := capitalInicialMes + aporte
  let divBrutos := capitalAntes * dividendosMensual
  let divNetos := divBrutos * (1 - retencionFactor)
  let crecimiento := capitalAntes * rendimientoMensual
  let capitalNuevo := capitalAntes + divNetos + crecimiento
  { mes := mes
    capitalInicialMes := capitalInicialMes
    aporte := aporte
    divNetos := divNetos
    crecimiento := crecimiento
    capitalFinal := capitalNuevo }

/-- The carried `capital` after one month: the `capital = ...` assignment on
source line 104, as a function of the previous capital. -/
def siguienteCapital (aporteMensual rendimientoMensual dividendosMensual retencionFactor : ℚ)
    (capital : ℚ) : ℚ :=
  (pasoMes aporteMensual rendimientoMensual dividendosMensual retencionFactor capital 0).capitalFinal

/-- The `for` loop of `simular_inversion` unrolled: emit `n` consecutive monthly records
starting at month number `mes` with carried capital `capital`. -/
def filasDesde (aporteMensual rendimientoMensual dividendosMensual retencionFactor : ℚ)
    (capital : ℚ) (mes : ℕ) : ℕ → List RegistroMes
  | 0 => []
  | n + 1 =>
    let r := pasoMes aporteMensual rendimientoMensual dividendosMensual retencionFactor capital mes
    r :: filasDesde aporteMensual rendimientoMensual dividendosMensual retencionFactor
      r.capitalFinal (mes + 1) n

/-- `simular_inversion` (source lines 86–115): computes the monthly rates
(`rendimiento_anual / 100 / 12`, `dividendos_anuales / 100 / 12`, `retencion / 100`)
and runs the recurrence for `meses` months starting from `capital_inicial`.
The returned DataFrame is modelled as the list of its rows. -/
def simular_inversion (capitalInicial aporteMensual rendimientoAnual
    dividendosAnuales retencion : ℚ) (meses : ℕ) : List RegistroMes :=
  filasDesde aporteMensual (rendimientoAnual / 100 / 12) (dividendosAnuales / 100 / 12)
    (retencion / 100) capitalInicial 1 meses

/-- `df_simulacion['Capital Final'].iloc[-1]` (source lines 123 and 326): the final
closing capital of a trajectory, i.e. the `capitalFinal` of the last record.
The `0` default is never reached for a nonempty trajectory. -/
def capitalFinalDe (capitalInicial aporteMensual rendimientoAnual
    dividendosAnuales retencion : ℚ) (meses : ℕ) : ℚ :=
  ((simular_inversion capitalInicial aporteMensual rendimientoAnual
      dividendosAnuales retencion meses).getLast?).elim 0 RegistroMes.capitalFinal

/-- The body of the goal-seek `while` loop (source lines 269–274): one month of the
same accrual, written inline (here `div_netos` is computed in a single expression,
without the separate `div_brutos` variable of `simular_inversion`). -/
def pasoMeta (aporteMensual rendimientoMensual dividendosMensual retencionFactor : ℚ)
    (capital : ℚ) : ℚ :=
  let aporte := aporteMensual
  let capitalAntes := capital + aporte
  let divNetos := capitalAntes * dividendosMensual * (1 - retencionFactor)
  let crecimiento := capitalAntes * rendimientoMensual
  capitalAntes + divNetos + crecimiento

/-- The goal-seek `while capital < meta_capital and mes < 600` loop (source lines
266–274), with the remaining iteration budget `600 - mes` made explicit as fuel:
returns the final `(capital, mes)` pair. -/
def buscaMeta (aporteMensual rendimientoMensual dividendosMensual retencionFactor
    meta : ℚ) (capital : ℚ) (mes : ℕ) : ℕ → ℚ × ℕ
  | 0 => (capital, mes)
  | n + 1 =>
    if capital < meta then
      buscaMeta aporteMensual rendimientoMensual dividendosMensual retencionFactor meta
        (pasoMeta aporteMensual rendimientoMensual dividendosMensual retencionFactor capital)
        (mes + 1) n
    else
      (capital, mes)

/-- The complete goal-seek computation of the "Alcanzar Meta" tab (source lines
261–276): monthly rates, the bounded while loop from `capital = capital_inicial`,
`mes = 0`, and the final `capital >= meta_capital` test deciding whether the goal
was reached. -/
def monthsToGoal (capitalInicial aporteMensual rendimientoAnual dividendosAnuales
    retencion meta : ℚ) : Bool × ℕ :=
  let resultado := buscaMeta aporteMensual (rendimientoAnual / 100 / 12)
    (dividendosAnuales / 100 / 12) (retencion / 100) meta capitalInicial 0 600
  (decide (meta ≤ resultado.1), resultado.2)

/-- One sensitivity scenario of the "Análisis de Sensibilidad" tab: a label and the
annual return rate used for the variant run. -/
structure Escenario where
  nombre : String
  rendimiento : ℚ
  deriving Repr, DecidableEq

/-- The `escenarios` list (source lines 313–317): pessimistic at
`max(rendimiento_anual - 5, 0)`, base at `rendimiento_anual`, optimistic at
`rendimiento_anual + 5`. -/
def escenarios (rendimientoAnual : ℚ) : List Escenario :=
  [ { nombre := "Pesimista", rendimiento := max (rendimientoAnual - 5) 0 }
  , { nombre := "Base", rendimiento := rendimientoAnual }
  , { nombre := "Optimista", rendimiento := rendimientoAnual + 5 } ]

/-- The canonical deltas of the sensitivity analysis, in the order the source
builds its scenarios: pessimistic, base, optimistic. -/
def deltasCanonicos : List ℚ := [-5, 0, 5]

/-- `resultados_sens` (source lines 319–328): for each scenario, run
`simular_inversion` with the variant return rate and retain the scenario name and
the final closing capital `df_esc['Capital Final'].iloc[-1]`. -/
def resultadosSens (capitalInicial aporteMensual rendimientoAnual dividendosAnuales
    retencion : ℚ) (meses : ℕ) : List (String × ℚ) :=
  (escenarios rendimientoAnual).map fun esc =>
    (esc.nombre,
      capitalFinalDe capitalInicial aporteMensual esc.rendimiento dividendosAnuales
        retencion meses)

/-! ### Structural lemmas about the simulation loop -/

lemma pasoMes_capitalFinal (a r d ret c : ℚ) (mes : ℕ) :
    (pasoMes a r d ret c mes).capitalFinal
      = (c + a) + ((c + a) * d) * (1 - ret) + (c + a) * r := rfl

lemma pasoMes_capitalFinal_eq (a r d ret c : ℚ) (mes : ℕ) :
    (pasoMes a r d ret c mes).capitalFinal = siguienteCapital a r d ret c := rfl

lemma siguienteCapital_factor (a r d ret c : ℚ) :
    siguienteCapital a r d ret c = (c + a) * (1 + d * (1 - ret) + r) := by
  rw [siguienteCapital, pasoMes_capitalFinal]; ring

lemma filasDesde_eq_map (a r d ret : ℚ) :
    ∀ (n : ℕ) (c : ℚ) (mes : ℕ),
      filasDesde a r d ret c mes n
        = (List.range n).map fun i =>
            pasoMes a r d ret ((siguienteCapital a r d ret)^[i] c) (mes + i)
  | 0, _, _ => rfl
  | n + 1, c, mes => by
    rw [show filasDesde a r d ret c mes (n + 1)
          = pasoMes a r d ret c mes
            :: filasDesde a r d ret (pasoMes a r d ret c mes).capitalFinal (mes + 1) n
        from rfl,
      filasDesde_eq_map a r d ret n (pasoMes a r d ret c mes).capitalFinal (mes + 1),
      List.range_succ_eq_map, List.map_cons, List.map_map]
    refine congrArg₂ _ (by simp) ?_
    refine List.map_congr_left fun i _ => ?_
    simp only [Function.comp_apply, pasoMes_capitalFinal_eq, Function.iterate_succ_apply]
    congr 1
    omega

lemma simular_eq_map (cap a rA dA ret : ℚ) (meses : ℕ) :
    simular_inversion cap a rA dA ret meses
      = (List.range meses).map fun i =>
          pasoMes a (rA / 100 / 12) (dA / 100 / 12) (ret / 100)
            ((siguienteCapital a (rA / 100 / 12) (dA / 100 / 12) (ret / 100))^[i] cap)
            (1 + i) :=
  filasDesde_eq_map a (rA / 100 / 12) (dA / 100 / 12) (ret / 100) meses cap 1

lemma simular_length (cap a rA dA ret : ℚ) (meses : ℕ) :
    (simular_inversion cap a rA dA ret meses).length = meses := by
  rw [simular_eq_map]; simp

lemma simular_get (cap a rA dA ret : ℚ) (meses i : ℕ)
    (h : i < (simular_inversion cap a rA dA ret meses).length) :
    (simular_inversion cap a rA dA ret meses).get ⟨i, h⟩
      = pasoMes a (rA / 100 / 12) (dA / 100 / 12) (ret / 100)
          ((siguienteCapital a (rA / 100 / 12) (dA / 100 / 12) (ret / 100))^[i] cap)
          (1 + i) := by
  have hi : i < meses := by rwa [simular_length] at h
  simp only [List.get_eq_getElem]
  rw [List.getElem_of_eq (simular_eq_map cap a rA dA ret meses)]
  simp [hi]

lemma capitalFinalDe_eq (cap a rA dA ret : ℚ) (n : ℕ) :
    capitalFinalDe cap a rA dA ret (n + 1)
      = (siguienteCapital a (rA / 100 / 12) (dA / 100 / 12) (ret / 100))^[n + 1] cap := by
  rw [capitalFinalDe, simular_eq_map, List.range_succ, List.map_append]
  simp [pasoMes_capitalFinal_eq, Function.iterate_succ_apply']

/-! ### Arithmetic lemmas about the capital recurrence -/

lemma factor_ge_one (r d ret : ℚ) (hr : 0 ≤ r) (hd : 0 ≤ d) (hret1 : ret ≤ 1) :
    (1 : ℚ) ≤ 1 + d * (1 - ret) + r := by
  nlinarith [mul_nonneg hd (sub_nonneg.mpr hret1)]

lemma siguienteCapital_ge (a r d ret c : ℚ) (hr : 0 ≤ r) (hd : 0 ≤ d) (hret1 : ret ≤ 1)
    (hca : 0 ≤ c + a) : c + a ≤ siguienteCapital a r d ret c := by
  rw [siguienteCapital_factor]
  nlinarith [factor_ge_one r d ret hr hd hret1]

lemma iterate_nonneg (a r d ret c : ℚ) (ha : 0 ≤ a) (hr : 0 ≤ r) (hd : 0 ≤ d)
    (hret1 : ret ≤ 1) (hc : 0 ≤ c) :
    ∀ n, 0 ≤ (siguienteCapital a r d ret)^[n] c := by
  intro n
  induction n with
  | zero => simpa using hc
  | succ n ih =>
    rw [Function.iterate_succ_apply']
    have hca : 0 ≤ (siguienteCapital a r d ret)^[n] c + a := by linarith
    have := siguienteCapital_ge a r d ret ((siguienteCapital a r d ret)^[n] c) hr hd hret1 hca
    linarith

lemma iterate_le_succ (a r d ret c : ℚ) (ha : 0 ≤ a) (hr : 0 ≤ r) (hd : 0 ≤ d)
    (hret1 : ret ≤ 1) (hc : 0 ≤ c) (n : ℕ) :
    (siguienteCapital a r d ret)^[n] c ≤ (siguienteCapital a r d ret)^[n + 1] c := by
  rw [Function.iterate_succ_apply']
  have h0 := iterate_nonneg a r d ret c ha hr hd hret1 hc n
  have hca : 0 ≤ (siguienteCapital a r d ret)^[n] c + a := by linarith
  have := siguienteCapital_ge a r d ret ((siguienteCapital a r d ret)^[n] c) hr hd hret1 hca
  linarith

lemma iterate_add_pos (a r d ret c : ℚ) (ha : 0 ≤ a) (hr : 0 ≤ r) (hd : 0 ≤ d)
    (hret1 : ret ≤ 1) (hc : 0 ≤ c) (hpos : 0 < c + a) :
    ∀ n, 0 < (siguienteCapital a r d ret)^[n] c + a := by
  intro n
  induction n with
  | zero => simpa using hpos
  | succ n ih =>
    rw [Function.iterate_succ_apply']
    have hca : 0 ≤ (siguienteCapital a r d ret)^[n] c + a := le_of_lt ih
    have := siguienteCapital_ge a r d ret ((siguienteCapital a r d ret)^[n] c) hr hd hret1 hca
    linarith

lemma iterate_lt_of_rate_lt (a d ret c r1 r2 : ℚ) (ha : 0 ≤ a) (hd : 0 ≤ d)
    (hret1 : ret ≤ 1) (hr1 : 0 ≤ r1) (hlt : r1 < r2) (hc : 0 ≤ c) (hpos : 0 < c + a) :
    ∀ n, 1 ≤ n →
      (siguienteCapital a r1 d ret)^[n] c < (siguienteCapital a r2 d ret)^[n] c := by
  intro n hn
  induction n with
  | zero => omega
  | succ n ih =>
    cases n with
    | zero =>
      simp only [Function.iterate_one, zero_add]
      rw [siguienteCapital_factor, siguienteCapital_factor]
      have hD : 0 ≤ d * (1 - ret) := mul_nonneg hd (sub_nonneg.mpr hret1)
      nlinarith
    | succ m =>
      have hx := ih (by omega)
      have hxa : 0 < (siguienteCapital a r1 d ret)^[m + 1] c + a :=
        iterate_add_pos a r1 d ret c ha hr1 hd hret1 hc hpos (m + 1)
      have e1 : (siguienteCapital a r1 d ret)^[m + 1 + 1] c
          = siguienteCapital a r1 d ret ((siguienteCapital a r1 d ret)^[m + 1] c) :=
        Function.iterate_succ_apply' _ _ _
      have e2 : (siguienteCapital a r2 d ret)^[m + 1 + 1] c
          = siguienteCapital a r2 d ret ((siguienteCapital a r2 d ret)^[m + 1] c) :=
        Function.iterate_succ_apply' _ _ _
      rw [e1, e2, siguienteCapital_factor, siguienteCapital_factor]
      have hF1 : (1 : ℚ) ≤ 1 + d * (1 - ret) + r1 := factor_ge_one r1 d ret hr1 hd hret1
      have hya : 0 < (siguienteCapital a r2 d ret)^[m + 1] c + a := by linarith
      have s1 : ((siguienteCapital a r1 d ret)^[m + 1] c + a) * (1 + d * (1 - ret) + r1)
          < ((siguienteCapital a r2 d ret)^[m + 1] c + a) * (1 + d * (1 - ret) + r1) := by
        apply mul_lt_mul_of_pos_right (by linarith) (by linarith)
      have s2 : ((siguienteCapital a r2 d ret)^[m + 1] c + a) * (1 + d * (1 - ret) + r1)
          < ((siguienteCapital a r2 d ret)^[m + 1] c + a) * (1 + d * (1 - ret) + r2) := by
        apply mul_lt_mul_of_pos_left (by linarith) hya
      linarith

lemma pasoMeta_eq_siguienteCapital (a r d ret c : ℚ) :
    pasoMeta a r d ret c = siguienteCapital a r d ret c := by
  rw [pasoMeta, siguienteCapital, pasoMes_capitalFinal]

lemma pasoMes_capitalInicialMes (a r d ret c : ℚ) (mes : ℕ) :
    (pasoMes a r d ret c mes).capitalInicialMes = c := rfl

lemma pasoMes_mes (a r d ret c : ℚ) (mes : ℕ) :
    (pasoMes a r d ret c mes).mes = mes := rfl

lemma pasoMes_aporte (a r d ret c : ℚ) (mes : ℕ) :
    (pasoMes a r d ret c mes).aporte = a := rfl

/-! ### Claim theorems -/

/-- C1: for every parameter set and every month `m` in `1..N`, the `m`-th record
produced by `simular_inversion` satisfies the monthly recurrence: the stored
contribution is `aporte_mensual`; net dividends are the gross dividends
`(opening + contribution) * (annual_dividend_rate/100/12)` times
`(1 - withholding_rate/100)`; growth is
`(opening + contribution) * (annual_return_rate/100/12)`; the closing capital is
`contributed + net_dividends + growth`; the opening capital of month `m` is the
capital carried forward — the `(m-1)`-fold monthly update of the initial capital —
and in particular the opening capital of month 1 is the initial capital. -/
theorem C1_recurrencia_mensual (c a rA dA ret : ℚ) (meses m : ℕ) (hm : 1 ≤ m)
    (h : m - 1 < (simular_inversion c a rA dA ret meses).length) :
    ((simular_inversion c a rA dA ret meses).get ⟨m - 1, h⟩).aporte = a
    ∧ ((simular_inversion c a rA dA ret meses).get ⟨m - 1, h⟩).divNetos
        = (((simular_inversion c a rA dA ret meses).get ⟨m - 1, h⟩).capitalInicialMes + a)
            * (dA / 100 / 12) * (1 - ret / 100)
    ∧ ((simular_inversion c a rA dA ret meses).get ⟨m - 1, h⟩).crecimiento
        = (((simular_inversion c a rA dA ret meses).get ⟨m - 1, h⟩).capitalInicialMes + a)
            * (rA / 100 / 12)
    ∧ ((simular_inversion c a rA dA ret meses).get ⟨m - 1, h⟩).capitalFinal
        = (((simular_inversion c a rA dA ret meses).get ⟨m - 1, h⟩).capitalInicialMes + a)
            + ((simular_inversion c a rA dA ret meses).get ⟨m - 1, h⟩).divNetos
            + ((simular_inversion c a rA dA ret meses).get ⟨m - 1, h⟩).crecimiento
    ∧ ((simular_inversion c a rA dA ret meses).get ⟨m - 1, h⟩).capitalInicialMes
        = (siguienteCapital a (rA / 100 / 12) (dA / 100 / 12) (ret / 100))^[m - 1] c
    ∧ (m = 1 →
        ((simular_inversion c a rA dA ret meses).get ⟨m - 1, h⟩).capitalInicialMes = c) := by
  rw [simular_get]
  refine ⟨rfl, rfl, rfl, rfl, rfl, fun h1 => ?_⟩
  subst h1
  simp [pasoMes_capitalInicialMes]

/-- Witness for C1 at the spec's end-to-end example parameters with a one-month
horizon: month 1 opens at the initial capital and the dividend equation holds. -/
theorem C1_recurrencia_mensual_testigo :
    ((simular_inversion 10000 500 10 2 30 1).get ⟨0, by decide⟩).divNetos
        = (((simular_inversion 10000 500 10 2 30 1).get ⟨0, by decide⟩).capitalInicialMes + 500)
            * (2 / 100 / 12) * (1 - 30 / 100)
    ∧ ((simular_inversion 10000 500 10 2 30 1).get ⟨0, by decide⟩).capitalInicialMes = 10000 :=
  ⟨(C1_recurrencia_mensual 10000 500 10 2 30 1 1 (by norm_num) (by decide)).2.1,
   (C1_recurrencia_mensual 10000 500 10 2 30 1 1 (by norm_num) (by decide)).2.2.2.2.2 rfl⟩

/-- C2: for every parameter set with `horizon_months = N ≥ 1` the trajectory has
exactly `N` records and the `i`-th record (0-based) carries month number `i + 1`:
months are 1-based, contiguous, without gaps. -/
theorem C2_longitud_y_meses (c a rA dA ret : ℚ) (meses : ℕ) (hm : 1 ≤ meses) :
    (simular_inversion c a rA dA ret meses).length = meses
    ∧ ∀ i (h : i < (simular_inversion c a rA dA ret meses).length),
        ((simular_inversion c a rA dA ret meses).get ⟨i, h⟩).mes = i + 1 := by
  refine ⟨simular_length c a rA dA ret meses, fun i h => ?_⟩
  rw [simular_get, pasoMes_mes]
  omega

/-- Witness for C2: a 3-month run has 3 records and its first record is month 1. -/
theorem C2_longitud_y_meses_testigo :
    (simular_inversion 10000 500 10 2 30 3).length = 3
    ∧ ((simular_inversion 10000 500 10 2 30 3).get ⟨0, by decide⟩).mes = 0 + 1 :=
  ⟨(C2_longitud_y_meses 10000 500 10 2 30 3 (by norm_num)).1,
   (C2_longitud_y_meses 10000 500 10 2 30 3 (by norm_num)).2 0 (by decide)⟩

/-- C3: sequential continuity — the opening capital of record `i + 1` (0-based),
i.e. of month `i + 2`, equals the closing capital of record `i` (month `i + 1`). -/
theorem C3_continuidad_secuencial (c a rA dA ret : ℚ) (meses i : ℕ)
    (h : i + 1 < (simular_inversion c a rA dA ret meses).length) :
    ((simular_inversion c a rA dA ret meses).get ⟨i + 1, h⟩).capitalInicialMes
      = ((simular_inversion c a rA dA ret meses).get
          ⟨i, Nat.lt_of_succ_lt h⟩).capitalFinal := by
  rw [simular_get, simular_get, pasoMes_capitalInicialMes, pasoMes_capitalFinal_eq]
  exact Function.iterate_succ_apply' _ _ _

/-- Witness for C3: in a 2-month run, month 2 opens at month 1's closing capital. -/
theorem C3_continuidad_secuencial_testigo :
    ((simular_inversion 10000 500 10 2 30 2).get ⟨1, by decide⟩).capitalInicialMes
      = ((simular_inversion 10000 500 10 2 30 2).get
          ⟨0, Nat.lt_of_succ_lt (by decide)⟩).capitalFinal :=
  C3_continuidad_secuencial 10000 500 10 2 30 2 0 (by decide)

/-- C4: with all amounts and rates non-negative and the withholding rate in
`[0, 100]`, consecutive closing capitals never decrease. -/
theorem C4_capital_no_decreciente (c a rA dA ret : ℚ) (meses i : ℕ)
    (hc : 0 ≤ c) (ha : 0 ≤ a) (hrA : 0 ≤ rA) (hdA : 0 ≤ dA)
    (hret0 : 0 ≤ ret) (hret1 : ret ≤ 100)
    (h : i + 1 < (simular_inversion c a rA dA ret meses).length) :
    ((simular_inversion c a rA dA ret meses).get ⟨i, Nat.lt_of_succ_lt h⟩).capitalFinal
      ≤ ((simular_inversion c a rA dA ret meses).get ⟨i + 1, h⟩).capitalFinal := by
  rw [simular_get, simular_get, pasoMes_capitalFinal_eq, pasoMes_capitalFinal_eq]
  have h1 : (siguienteCapital a (rA / 100 / 12) (dA / 100 / 12) (ret / 100))^[i + 1] c
      = siguienteCapital a (rA / 100 / 12) (dA / 100 / 12) (ret / 100)
          ((siguienteCapital a (rA / 100 / 12) (dA / 100 / 12) (ret / 100))^[i] c) :=
    Function.iterate_succ_apply' _ _ _
  have h2 : (siguienteCapital a (rA / 100 / 12) (dA / 100 / 12) (ret / 100))^[i + 1 + 1] c
      = siguienteCapital a (rA / 100 / 12) (dA / 100 / 12) (ret / 100)
          ((siguienteCapital a (rA / 100 / 12) (dA / 100 / 12) (ret / 100))^[i + 1] c) :=
    Function.iterate_succ_apply' _ _ _
  rw [← h1, ← h2]
  exact iterate_le_succ a (rA / 100 / 12) (dA / 100 / 12) (ret / 100) c ha
    (div_nonneg (div_nonneg hrA (by norm_num)) (by norm_num))
    (div_nonneg (div_nonneg hdA (by norm_num)) (by norm_num))
    (by linarith) hc (i + 1)

/-- Witness for C4: in a 2-month run at the spec's example parameters, month 2's
closing capital is at least month 1's. -/
theorem C4_capital_no_decreciente_testigo :
    ((simular_inversion 10000 500 10 2 30 2).get
        ⟨0, Nat.lt_of_succ_lt (by decide)⟩).capitalFinal
      ≤ ((simular_inversion 10000 500 10 2 30 2).get ⟨1, by decide⟩).capitalFinal :=
  C4_capital_no_decreciente 10000 500 10 2 30 2 0 (by norm_num) (by norm_num)
    (by norm_num) (by norm_num) (by norm_num) (by norm_num) (by decide)

/-- C5: when the target does not exceed the initial capital, the goal-seek loop
performs zero iterations and reports the goal reached in 0 months. -/
theorem C5_meta_ya_alcanzada (c a rA dA ret meta : ℚ) (h : meta ≤ c) :
    monthsToGoal c a rA dA ret meta = (true, 0) := by
  rw [monthsToGoal]
  rw [show buscaMeta a (rA / 100 / 12) (dA / 100 / 12) (ret / 100) meta c 0 600
        = if c < meta then
            buscaMeta a (rA / 100 / 12) (dA / 100 / 12) (ret / 100) meta
              (pasoMeta a (rA / 100 / 12) (dA / 100 / 12) (ret / 100) c) 1 599
          else (c, 0)
      from rfl]
  rw [if_neg (not_lt.mpr h)]
  simp [h]

/-- Witness for C5: target 5000 against initial capital 10000 yields `(true, 0)`. -/
theorem C5_meta_ya_alcanzada_testigo :
    monthsToGoal 10000 500 10 2 30 5000 = (true, 0) :=
  C5_meta_ya_alcanzada 10000 500 10 2 30 5000 (by norm_num)

lemma buscaMeta_estancada (retF meta c : ℚ) (hlt : c < meta) :
    ∀ (fuel mes : ℕ), buscaMeta 0 0 0 retF meta c mes fuel = (c, mes + fuel) := by
  intro fuel
  induction fuel with
  | zero => intro mes; rfl
  | succ n ih =>
    intro mes
    have hfix : pasoMeta 0 0 0 retF c = c := by
      rw [pasoMeta_eq_siguienteCapital, siguienteCapital_factor]; ring
    rw [buscaMeta, if_pos hlt, hfix, ih (mes + 1)]
    refine congrArg _ ?_
    omega

/-- C6: with zero contribution, zero return and zero dividends and a target above
the initial capital, the goal-seek loop runs to its 600-iteration cap and reports
`(reached = false, months = 600)`: a normal goal-unreachable outcome. -/
theorem C6_meta_inalcanzable (c ret meta : ℚ) (h : c < meta) :
    monthsToGoal c 0 0 0 ret meta = (false, 600) := by
  rw [monthsToGoal]
  rw [show (0 : ℚ) / 100 / 12 = 0 from by norm_num]
  rw [buscaMeta_estancada (ret / 100) meta c h 600 0]
  simp [not_le.mpr h]

/-- Witness for C6: stagnant parameters with target 20000 over capital 10000 give
`(false, 600)`. -/
theorem C6_meta_inalcanzable_testigo :
    monthsToGoal 10000 0 0 0 30 20000 = (false, 600) :=
  C6_meta_inalcanzable 10000 30 20000 (by norm_num)

/-- C7: for a non-negative base annual return rate, the scenario list applies the
canonical deltas `[-5, 0, 5]` with the variant rate floored at zero,
`max (r + delta) 0`, one scenario per delta in delta order. -/
theorem C7_tasas_de_escenarios (r : ℚ) (h : 0 ≤ r) :
    (escenarios r).map Escenario.rendimiento
      = deltasCanonicos.map fun delta => max (r + delta) 0 := by
  rw [escenarios, deltasCanonicos]
  simp only [List.map_cons, List.map_nil]
  refine congrArg₂ _ ?_ (congrArg₂ _ ?_ (congrArg₂ _ ?_ rfl))
  · rw [show r + (-5 : ℚ) = r - 5 from by ring]
  · rw [add_zero, max_eq_left h]
  · rw [max_eq_left (by linarith)]

/-- Witness for C7: at base rate 2 the scenario rates are `[0, 2, 7]` — the
pessimistic variant is floored at 0, not −3. -/
theorem C7_tasas_de_escenarios_testigo :
    (escenarios 2).map Escenario.rendimiento
      = deltasCanonicos.map fun delta => max (2 + delta) 0 :=
  C7_tasas_de_escenarios 2 (by norm_num)

/-- C10: the inline monthly update of the goal-seek loop, iterated `m ≥ 1` times
from the initial capital with the same derived monthly rates, lands exactly on the
final closing capital of `simular_inversion` run for `m` months: the two per-month
updates are the same function of the carried capital. -/
theorem C10_paso_equivalente (c a rA dA ret : ℚ) (m : ℕ) (hm : 1 ≤ m) :
    (pasoMeta a (rA / 100 / 12) (dA / 100 / 12) (ret / 100))^[m] c
      = capitalFinalDe c a rA dA ret m := by
  obtain ⟨n, rfl⟩ : ∃ n, m = n + 1 := ⟨m - 1, by omega⟩
  rw [capitalFinalDe_eq]
  have hfun : pasoMeta a (rA / 100 / 12) (dA / 100 / 12) (ret / 100)
      = siguienteCapital a (rA / 100 / 12) (dA / 100 / 12) (ret / 100) :=
    funext fun x => pasoMeta_eq_siguienteCapital a (rA / 100 / 12) (dA / 100 / 12) (ret / 100) x
  rw [hfun]

/-- Witness for C10: after one month at the example parameters, the goal-seek
update and the simulation's final closing capital agree. -/
theorem C10_paso_equivalente_testigo :
    (pasoMeta 500 (10 / 100 / 12) (2 / 100 / 12) (30 / 100))^[1] 10000
      = capitalFinalDe 10000 500 10 2 30 1 :=
  C10_paso_equivalente 10000 500 10 2 30 1 (by norm_num)

/-- C8 as stated is false: with zero initial capital and zero contribution — values
its hypotheses allow — all three scenario finals are 0, so the finals do not
strictly increase with the delta. -/
theorem C8_contraejemplo :
    resultadosSens 0 0 10 0 0 1 = [("Pesimista", 0), ("Base", 0), ("Optimista", 0)]
    ∧ ¬ ((0 : ℚ) < 0) := by
  refine ⟨?_, lt_irrefl 0⟩
  simp only [resultadosSens, escenarios, capitalFinalDe, simular_inversion, filasDesde,
    pasoMes, List.map_cons, List.map_nil, List.getLast?, List.getLast, Option.elim]
  norm_num

/-- C8 (amended: additionally `initial_capital + monthly_contribution > 0`): with
base rate 10 the scenario rates are `[5, 10, 15]` and the three final closing
capitals strictly increase from pessimistic to base to optimistic. -/
theorem C8_sensibilidad_estricta (c a dA ret : ℚ) (meses : ℕ)
    (hc : 0 ≤ c) (ha : 0 ≤ a) (hdA : 0 ≤ dA) (hret0 : 0 ≤ ret) (hret1 : ret ≤ 100)
    (hm : 1 ≤ meses) (hpos : 0 < c + a) :
    (escenarios 10).map Escenario.rendimiento = [5, 10, 15]
    ∧ resultadosSens c a 10 dA ret meses
        = [("Pesimista", capitalFinalDe c a 5 dA ret meses),
           ("Base", capitalFinalDe c a 10 dA ret meses),
           ("Optimista", capitalFinalDe c a 15 dA ret meses)]
    ∧ capitalFinalDe c a 5 dA ret meses < capitalFinalDe c a 10 dA ret meses
    ∧ capitalFinalDe c a 10 dA ret meses < capitalFinalDe c a 15 dA ret meses := by
  obtain ⟨n, rfl⟩ : ∃ n, meses = n + 1 := ⟨meses - 1, by omega⟩
  have h5 : max ((10 : ℚ) - 5) 0 = 5 := by norm_num
  have h15 : (10 : ℚ) + 5 = 15 := by norm_num
  have hd : 0 ≤ dA / 100 / 12 := div_nonneg (div_nonneg hdA (by norm_num)) (by norm_num)
  have hretF : ret / 100 ≤ 1 := by linarith
  refine ⟨?_, ?_, ?_, ?_⟩
  · rw [escenarios]
    simp only [List.map_cons, List.map_nil]
    rw [h5, h15]
  · rw [resultadosSens, escenarios]
    simp only [List.map_cons, List.map_nil]
    rw [h5, h15]
  · rw [capitalFinalDe_eq, capitalFinalDe_eq]
    exact iterate_lt_of_rate_lt a (dA / 100 / 12) (ret / 100) c
      (5 / 100 / 12) (10 / 100 / 12) ha hd hretF (by norm_num) (by norm_num) hc hpos
      (n + 1) (by omega)
  · rw [capitalFinalDe_eq, capitalFinalDe_eq]
    exact iterate_lt_of_rate_lt a (dA / 100 / 12) (ret / 100) c
      (10 / 100 / 12) (15 / 100 / 12) ha hd hretF (by norm_num) (by norm_num) hc hpos
      (n + 1) (by omega)

/-- Witness for the amended C8 at the example parameters over one month: the
pessimistic final is strictly below the base final. -/
theorem C8_sensibilidad_estricta_testigo :
    capitalFinalDe 10000 500 5 2 30 1 < capitalFinalDe 10000 500 10 2 30 1 :=
  (C8_sensibilidad_estricta 10000 500 2 30 1 (by norm_num) (by norm_num) (by norm_num)
    (by norm_num) (by norm_num) (by norm_num) (by norm_num)).2.2.1

/-- C9 as stated is false: invoked with a negative annual return rate (an invalid
parameter), the engine does not stop before the monthly recurrence — it produces a
record and computes the month normally (net dividends 12.25, growth −105). -/
theorem C9_contraejemplo :
    simular_inversion 10000 500 (-12) 2 30 1
      = [{ mes := 1, capitalInicialMes := 10000, aporte := 500,
           divNetos := 49 / 4, crecimiento := -105,
           capitalFinal := 41629 / 4 }] := by
  simp only [simular_inversion, filasDesde, pasoMes]
  norm_num

/-- C9 (amended): the engine performs no parameter validation — that is a
caller-side precondition enforced by the presentation layer's input widgets. For
every input, valid or not (negative rates and amounts included), it runs the
recurrence and produces exactly `horizon_months` records (zero records when the
horizon is zero). -/
theorem C9_sin_validacion (c a rA dA ret : ℚ) (meses : ℕ) :
    (simular_inversion c a rA dA ret meses).length = meses :=
  simular_length c a rA dA ret meses
